import Mathlib

/-!
Shallow embedding of the iced text-editor application in `src/main.rs`
(repository `nordluma/editor`): the editor state, its message/event enum,
the pure `update` transition, the asynchronous file helpers `pick_file`,
`load_file` and `save_file` (modelled against an explicit dialog/filesystem
environment), and the pure projections of `view` and `subscription` that the
specification's claims are about.

The GUI toolkit's text buffer (`iced::widget::text_editor::Content`) and the
OS error kinds are external collaborators; they are modelled from the spec's
description (an opaque text buffer with a 0-indexed (line, column) cursor,
and a typed OS error kind rendered as literal text).
-/

namespace EditorApp

/-- Modelled from the spec: the operating-system error kind
(`std::io::ErrorKind`, an external collaborator).  `toString` gives the
literal OS error text that `err.to_string()` produces in the status bar. -/
inductive IOErrorKind where
  | NotFound
  | PermissionDenied
  | AlreadyExists
  | InvalidInput
  | Other
deriving DecidableEq, Repr

/-- The display text of an OS error kind, as printed by the standard
library's `Display` implementation. -/
def IOErrorKind.toString : IOErrorKind → String
  | .NotFound => "entity not found"
  | .PermissionDenied => "permission denied"
  | .AlreadyExists => "entity already exists"
  | .InvalidInput => "invalid input parameter"
  | .Other => "other error"

/-- `enum Error` from src/main.rs: a cancelled dialog or an I/O failure
wrapping the OS error kind. -/
inductive Error where
  | DialogClosed
  | IOFailed : IOErrorKind → Error
deriving DecidableEq, Repr

/-- Modelled from the spec: cursor motions of the GUI toolkit's
`text_editor::Motion` (external collaborator). -/
inductive Motion where
  | Left
  | Right
  | Up
  | Down
deriving DecidableEq, Repr

/-- Modelled from the spec: the mutating edit primitives of the GUI
toolkit's `text_editor::Edit` (external collaborator). -/
inductive Edit where
  | Insert : Char → Edit
  | Paste : String → Edit
  | Enter
  | Backspace
  | Delete
deriving DecidableEq, Repr

/-- Modelled from the spec: the GUI toolkit's `text_editor::Action`
(external collaborator): cursor movement, selection, pointer actions,
scrolling, and mutating edits. -/
inductive Action where
  | Move : Motion → Action
  | Select : Motion → Action
  | SelectWord
  | SelectLine
  | Edit : Edit → Action
  | Click
  | Drag
  | Scroll : Int → Action
deriving DecidableEq, Repr

/-- `Action::is_edit`: true exactly for the mutating `Edit` variant. -/
def Action.is_edit : Action → Bool
  | .Edit _ => true
  | _ => false

/-- Modelled from the spec: the GUI toolkit's text buffer
(`text_editor::Content`, an external collaborator): an opaque text buffer
with a cursor position expressed as (line, column), both 0-indexed. -/
structure Content where
  lines : List String
  cursorLine : Nat
  cursorCol : Nat
deriving DecidableEq, Repr

/-- `Content::new()`: an empty buffer (one empty line), cursor at (0, 0). -/
def Content.new : Content :=
  { lines := [""], cursorLine := 0, cursorCol := 0 }

/-- `Content::with(text)`: a buffer holding the given text, cursor at
(0, 0). -/
def Content.with (text : String) : Content :=
  { lines := text.splitOn "\n", cursorLine := 0, cursorCol := 0 }

/-- `Content::text()`: the buffer contents as a single string. -/
def Content.text (c : Content) : String :=
  String.intercalate "\n" c.lines

/-- `Content::cursor_position()`: the internal 0-indexed (line, column)
cursor position. -/
def Content.cursor_position (c : Content) : Nat × Nat :=
  (c.cursorLine, c.cursorCol)

/-- The line the cursor is on (empty when out of range). -/
def Content.curLine (c : Content) : String :=
  c.lines.getD c.cursorLine ""

/-- Modelled from the spec: cursor movement within the buffer, clamped to
line and buffer bounds. -/
def Content.moveCursor (c : Content) (m : Motion) : Content :=
  match m with
  | .Left =>
      if c.cursorCol > 0 then { c with cursorCol := c.cursorCol - 1 } else c
  | .Right =>
      if c.cursorCol < c.curLine.length then
        { c with cursorCol := c.cursorCol + 1 }
      else c
  | .Up =>
      if c.cursorLine > 0 then
        { c with cursorLine := c.cursorLine - 1,
                 cursorCol := min c.cursorCol (c.lines.getD (c.cursorLine - 1) "").length }
      else c
  | .Down =>
      if c.cursorLine + 1 < c.lines.length then
        { c with cursorLine := c.cursorLine + 1,
                 cursorCol := min c.cursorCol (c.lines.getD (c.cursorLine + 1) "").length }
      else c

/-- Modelled from the spec: the mutating edit primitives applied at the
cursor (insert, paste, newline, backspace, delete). -/
def Content.applyEdit (c : Content) (e : Edit) : Content :=
  let line := c.curLine
  match e with
  | .Insert ch =>
      { c with
        lines := c.lines.set c.cursorLine
          (line.take c.cursorCol ++ String.singleton ch ++ line.drop c.cursorCol),
        cursorCol := c.cursorCol + 1 }
  | .Paste s =>
      { c with
        lines := c.lines.set c.cursorLine
          (line.take c.cursorCol ++ s ++ line.drop c.cursorCol),
        cursorCol := c.cursorCol + s.length }
  | .Enter =>
      { c with
        lines := c.lines.take c.cursorLine
          ++ [line.take c.cursorCol, line.drop c.cursorCol]
          ++ c.lines.drop (c.cursorLine + 1),
        cursorLine := c.cursorLine + 1,
        cursorCol := 0 }
  | .Backspace =>
      if c.cursorCol > 0 then
        { c with
          lines := c.lines.set c.cursorLine
            (line.take (c.cursorCol - 1) ++ line.drop c.cursorCol),
          cursorCol := c.cursorCol - 1 }
      else if c.cursorLine > 0 then
        let prev := c.lines.getD (c.cursorLine - 1) ""
        { c with
          lines := c.lines.take (c.cursorLine - 1) ++ [prev ++ line]
            ++ c.lines.drop (c.cursorLine + 1),
          cursorLine := c.cursorLine - 1,
          cursorCol := prev.length }
      else c
  | .Delete =>
      if c.cursorCol < line.length then
        { c with
          lines := c.lines.set c.cursorLine
            (line.take c.cursorCol ++ line.drop (c.cursorCol + 1)) }
      else
        match c.lines.drop (c.cursorLine + 1) with
        | [] => c
        | next :: rest =>
            { c with lines := c.lines.take c.cursorLine ++ [line ++ next] ++ rest }

/-- `Content::edit(action)`: movement and mutating edits change the buffer;
selection and pointer actions affect only selection state, which is not
modelled. -/
def Content.edit (c : Content) (a : Action) : Content :=
  match a with
  | .Move m => c.moveCursor m
  | .Edit e => c.applyEdit e
  | .Select _ => c
  | .SelectWord => c
  | .SelectLine => c
  | .Click => c
  | .Drag => c
  | .Scroll _ => c

/-- The syntax-highlighting themes (`iced::highlighter::Theme`, external
collaborator). -/
inductive HighlighterTheme where
  | SolarizedDark
  | Base16Eighties
  | Base16Mocha
  | Base16Ocean
  | InspiredGitHub
deriving DecidableEq, Repr

/-- `enum Messages` from src/main.rs: the event type consumed by `update`.
`FileOpened` carries the loaded path and content (an `Arc<String>` in the
source) or an `Error`; `FileSaved` carries the saved path or an `Error`. -/
inductive Messages where
  | New
  | Open
  | Save
  | Edit : Action → Messages
  | FileOpened : Except Error (String × String) → Messages
  | FileSaved : Except Error String → Messages
  | ThemeSelected : HighlighterTheme → Messages

/-- The commands `update` can issue (`iced::Command`): nothing, or one of
the three asynchronous file operations whose completion re-enters `update`
as a `FileOpened` / `FileSaved` message. -/
inductive Command where
  | none
  | performPickFile
  | performLoadFile : String → Command
  | performSaveFile : Option String → String → Command

/-- `struct Editor` from src/main.rs: the application state. -/
structure Editor where
  theme : HighlighterTheme
  path : Option String
  content : Content
  error : Option Error
  is_dirty : Bool

/-- `default_file()`: the compile-time default path (the tutorial's own
primary source file). -/
def default_file : String :=
  "CARGO_MANIFEST_DIR/src/main.rs"

/-- `Editor::new`: the initial state (dark theme, no path, empty content,
no error, dirty) together with the startup command that loads the default
file. -/
def Editor.new : Editor × Command :=
  ({ theme := HighlighterTheme.SolarizedDark,
     path := none,
     content := Content.new,
     error := none,
     is_dirty := true },
   Command.performLoadFile default_file)

/-- `Editor::update` from src/main.rs, translated clause by clause: the pure
state transition `(State, Event) -> (State, Command)`. -/
def update (s : Editor) (message : Messages) : Editor × Command :=
  match message with
  | .Open => (s, Command.performPickFile)
  | .New =>
      ({ s with is_dirty := true, path := none, content := Content.new },
       Command.none)
  | .Edit action =>
      ({ s with is_dirty := s.is_dirty || action.is_edit,
                error := none,
                content := s.content.edit action },
       Command.none)
  | .Save => (s, Command.performSaveFile s.path s.content.text)
  | .FileOpened (Except.ok (path, content)) =>
      ({ s with path := some path,
                content := Content.with content,
                is_dirty := false },
       Command.none)
  | .FileOpened (Except.error err) =>
      ({ s with error := some err }, Command.none)
  | .FileSaved (Except.ok path) =>
      ({ s with path := some path, is_dirty := false }, Command.none)
  | .FileSaved (Except.error err) =>
      ({ s with error := some err }, Command.none)
  | .ThemeSelected theme =>
      ({ s with theme := theme }, Command.none)

/-- Modelled from the spec: the dialog and filesystem collaborators the
asynchronous commands run against. `openDialog` / `saveDialog` give the
path the user picks (`none` when the dialog is cancelled); `read` / `write`
are the filesystem calls, failing with an OS error kind. -/
structure FsEnv where
  openDialog : Option String
  saveDialog : Option String
  read : String → Except IOErrorKind String
  write : String → String → Except IOErrorKind Unit

/-- `load_file(path)` from src/main.rs: read the file's contents, mapping
an OS failure to `IOFailed` with its kind. -/
def load_file (env : FsEnv) (path : String) : Except Error (String × String) :=
  match env.read path with
  | Except.error k => Except.error (Error.IOFailed k)
  | Except.ok content => Except.ok (path, content)

/-- `pick_file()` from src/main.rs: prompt with the open-file dialog; a
cancelled dialog fails with `DialogClosed`, otherwise load the chosen
file. -/
def pick_file (env : FsEnv) : Except Error (String × String) :=
  match env.openDialog with
  | none => Except.error Error.DialogClosed
  | some p => load_file env p

/-- `save_file(path, text)` from src/main.rs: resolve the target path
(prompting with the save dialog when no path is given; a cancelled dialog
fails with `DialogClosed` before anything is written), then write the text
there, mapping an OS failure to `IOFailed` with its kind.  The second
component records the write attempts made, in order. -/
def save_file (env : FsEnv) (path : Option String) (text : String) :
    Except Error String × List (String × String) :=
  let resolved : Except Error String :=
    match path with
    | some p => Except.ok p
    | none =>
        match env.saveDialog with
        | none => Except.error Error.DialogClosed
        | some p => Except.ok p
  match resolved with
  | Except.error e => (Except.error e, [])
  | Except.ok p =>
      match env.write p text with
      | Except.ok _ => (Except.ok p, [(p, text)])
      | Except.error k => (Except.error (Error.IOFailed k), [(p, text)])

/-- The status text of `Editor::view`'s status bar: the literal OS error
text when the error is `IOFailed`, otherwise the current path, otherwise
"New file". -/
def statusText (s : Editor) : String :=
  match s.error with
  | some (Error.IOFailed err) => err.toString
  | _ =>
      match s.path with
      | some path => path
      | none => "New file"

/-- The cursor-position text of `Editor::view`'s status bar:
`format!("{}:{}", line + 1, column + 1)` on the internal cursor
position. -/
def cursorText (s : Editor) : String :=
  toString (s.content.cursor_position.1 + 1) ++ ":"
    ++ toString (s.content.cursor_position.2 + 1)

/-- The `on_press` message attached to the save toolbar button in
`Editor::view`: `self.is_dirty.then_some(Messages::Save)`. -/
def saveControl (s : Editor) : Option Messages :=
  if s.is_dirty then some Messages.Save else none

/-- The key codes relevant to `Editor::subscription` (the toolkit's
`keyboard::KeyCode`, external collaborator). -/
inductive KeyCode where
  | S
  | OtherKey
deriving DecidableEq, Repr

/-- `Editor::subscription` from src/main.rs: the key-press handler emits
`Save` on Cmd/Ctrl+S and nothing otherwise.  The closure captures no state,
so the result ignores the editor state entirely. -/
def subscription (_s : Editor) (key : KeyCode) (commandModifier : Bool) :
    Option Messages :=
  match key with
  | KeyCode.S => if commandModifier then some Messages.Save else none
  | KeyCode.OtherKey => none

/-- Folding a sequence of edit actions through `update`, as the reachable
states after any sequence of edits. -/
def applyEdits (s : Editor) (acts : List Action) : Editor :=
  acts.foldl (fun e a => (update e (Messages.Edit a)).1) s

/-- Claim C1, counterexample: from a state whose `ErrorState` is set
(`DialogClosed`), processing a successful `FileOpened` event does NOT clear
`ErrorState` — the error is still present afterwards, contradicting the
claim that a successful `FileOpened` clears `ErrorState`. -/
theorem C1_counterexample :
    ((update
        { theme := HighlighterTheme.SolarizedDark,
          path := none,
          content := Content.new,
          error := some Error.DialogClosed,
          is_dirty := true }
        (Messages.FileOpened (Except.ok ("a.txt", "hello")))).1).error
      ≠ none := by
  simp [update]

/-- Claim C1 (amended): a successful `FileOpened` replaces the Document
content with the loaded text, sets `FilePath` to the loaded path and clears
the dirty flag, and a successful `FileSaved` sets `FilePath` and clears the
dirty flag — but both leave `ErrorState` unchanged, so an `ErrorState` set
before a successful operation is still present after it (only an `Edit`
clears it). -/
theorem C1_amended (s : Editor) (p t : String) :
    (update s (Messages.FileOpened (Except.ok (p, t)))).1
      = { s with path := some p, content := Content.with t, is_dirty := false }
    ∧ (update s (Messages.FileSaved (Except.ok p))).1
      = { s with path := some p, is_dirty := false } :=
  ⟨rfl, rfl⟩

/-- Claim C4: processing `Edit(action)` clears `ErrorState`, applies the
action to the Document, and sets the dirty flag to true exactly when the
action is a mutating edit or the flag was already true; no command is
issued. -/
theorem C4_edit (s : Editor) (a : Action) :
    (update s (Messages.Edit a)).1
      = { s with error := none,
                 content := s.content.edit a,
                 is_dirty := s.is_dirty || a.is_edit }
    ∧ ((update s (Messages.Edit a)).1.is_dirty = true
        ↔ (a.is_edit = true ∨ s.is_dirty = true))
    ∧ (update s (Messages.Edit a)).2 = Command.none := by
  refine ⟨rfl, ?_, rfl⟩
  show (s.is_dirty || a.is_edit) = true ↔ _
  constructor
  · intro h
    rcases Bool.or_eq_true_iff.mp h with h1 | h1
    · exact Or.inr h1
    · exact Or.inl h1
  · intro h
    rcases h with h1 | h1
    · exact Bool.or_eq_true_iff.mpr (Or.inr h1)
    · exact Bool.or_eq_true_iff.mpr (Or.inl h1)

/-- Claim C4, witness: a concrete edit event from the initial state. -/
theorem C4_witness :
    (update Editor.new.1 (Messages.Edit (Action.Move Motion.Left))).1
      = { Editor.new.1 with
          error := none,
          content := Editor.new.1.content.edit (Action.Move Motion.Left),
          is_dirty := Editor.new.1.is_dirty || (Action.Move Motion.Left).is_edit } :=
  (C4_edit Editor.new.1 (Action.Move Motion.Left)).1

/-- Claim C5: from any state, `New` clears `FilePath`, resets the Document
to empty content, sets the dirty flag, and issues no command; `Content.new`
really is empty text. -/
theorem C5_new (s : Editor) :
    update s Messages.New
      = ({ s with path := none, content := Content.new, is_dirty := true },
         Command.none)
    ∧ Content.new.text = "" :=
  ⟨rfl, rfl⟩

/-- Claim C7: processing `Open` or `Save` leaves the whole state unchanged;
the only effect is the corresponding asynchronous command (pick-and-load
for `Open`; write-or-prompt with the current path and text for `Save`). -/
theorem C7_open_save (s : Editor) :
    update s Messages.Open = (s, Command.performPickFile)
    ∧ update s Messages.Save = (s, Command.performSaveFile s.path s.content.text) :=
  ⟨rfl, rfl⟩

/-- Claim C10: `New` leaves `ErrorState` unchanged — an error set before
`New` is still present after it. -/
theorem C10_new_preserves_error (s : Editor) :
    ((update s Messages.New).1).error = s.error :=
  rfl

/-- A concrete dialog/filesystem environment: both dialogs cancelled, reads
fail with `NotFound`, writes succeed. -/
def envCancelled : FsEnv :=
  { openDialog := none,
    saveDialog := none,
    read := fun _ => Except.error IOErrorKind.NotFound,
    write := fun _ _ => Except.ok () }

/-- Claim C2: `save_file` with a present path writes the text to that path
without consulting the save dialog; with no path it prompts first, fails
with `DialogClosed` and writes nothing when the dialog is cancelled, and
writes only to the chosen path otherwise; any write failure is reported as
`IOFailed` wrapping the OS error kind. -/
theorem C2_save_file_spec (env : FsEnv) (text p : String) :
    (save_file env (some p) text).2 = [(p, text)]
    ∧ (∀ env2 : FsEnv, env2.write = env.write →
        save_file env2 (some p) text = save_file env (some p) text)
    ∧ (env.saveDialog = none →
        save_file env none text = (Except.error Error.DialogClosed, []))
    ∧ (env.saveDialog = some p → (save_file env none text).2 = [(p, text)])
    ∧ (∀ k, env.write p text = Except.error k →
        (save_file env (some p) text).1 = Except.error (Error.IOFailed k))
    ∧ (env.write p text = Except.ok () →
        (save_file env (some p) text).1 = Except.ok p) := by
  refine ⟨?_, ?_, ?_, ?_, ?_, ?_⟩
  · show (match env.write p text with
      | Except.ok _ => (Except.ok p, [(p, text)])
      | Except.error k => (Except.error (Error.IOFailed k), [(p, text)])).2
        = [(p, text)]
    cases env.write p text <;> rfl
  · intro env2 h
    show (match env2.write p text with
      | Except.ok _ => (Except.ok p, [(p, text)])
      | Except.error k => (Except.error (Error.IOFailed k), [(p, text)]))
      = (match env.write p text with
      | Except.ok _ => (Except.ok p, [(p, text)])
      | Except.error k => (Except.error (Error.IOFailed k), [(p, text)]))
    rw [h]
  · intro h
    simp [save_file, h]
  · intro h
    simp only [save_file, h]
    cases env.write p text <;> rfl
  · intro k h
    simp [save_file, h]
  · intro h
    simp [save_file, h]

/-- Claim C2, witness: with both dialogs cancelled, saving with no path
returns `DialogClosed` and performs no write. -/
theorem C2_witness :
    save_file envCancelled none "hello"
      = (Except.error Error.DialogClosed, []) :=
  (C2_save_file_spec envCancelled "hello" "p.txt").2.2.1 rfl

/-- Claim C3: cancelling the open-file dialog makes `pick_file` fail with
`DialogClosed`, cancelling the save dialog makes `save_file` fail with
`DialogClosed` writing nothing, and processing the resulting failed
`FileOpened` / `FileSaved` event only sets `ErrorState` — Document content,
`FilePath` and the dirty flag are unchanged and no command is issued. -/
theorem C3_dialog_cancelled (env : FsEnv) (s : Editor) (text : String) :
    (env.openDialog = none → pick_file env = Except.error Error.DialogClosed)
    ∧ (env.saveDialog = none →
        save_file env none text = (Except.error Error.DialogClosed, []))
    ∧ (∀ e : Error,
        update s (Messages.FileOpened (Except.error e))
          = ({ s with error := some e }, Command.none)
        ∧ update s (Messages.FileSaved (Except.error e))
          = ({ s with error := some e }, Command.none)) := by
  refine ⟨?_, ?_, ?_⟩
  · intro h
    simp [pick_file, h]
  · intro h
    simp [save_file, h]
  · intro e
    exact ⟨rfl, rfl⟩

/-- Claim C3, witness: a cancelled open dialog produces `DialogClosed`, and
delivering it as a failed `FileOpened` from the initial state only sets
`ErrorState`. -/
theorem C3_witness :
    pick_file envCancelled = Except.error Error.DialogClosed
    ∧ update Editor.new.1 (Messages.FileOpened (Except.error Error.DialogClosed))
        = ({ Editor.new.1 with error := some Error.DialogClosed }, Command.none) :=
  ⟨(C3_dialog_cancelled envCancelled Editor.new.1 "x").1 rfl,
   ((C3_dialog_cancelled envCancelled Editor.new.1 "x").2.2 Error.DialogClosed).1⟩

/-- Claim C6: the status line shows the OS error text verbatim exactly when
`ErrorState` is an `IOFailed` error; when `ErrorState` is `DialogClosed` or
empty, it shows the current path when `FilePath` is set and "New file"
otherwise — a `DialogClosed` error is displayed exactly as if no error were
present. -/
theorem C6_status (s : Editor) :
    (∀ k, s.error = some (Error.IOFailed k) →
        statusText s = IOErrorKind.toString k)
    ∧ (s.error = some Error.DialogClosed ∨ s.error = none →
        (∀ p, s.path = some p → statusText s = p)
        ∧ (s.path = none → statusText s = "New file")) := by
  constructor
  · intro k h
    simp [statusText, h]
  · intro h
    rcases h with h | h <;>
      exact ⟨fun p hp => by simp [statusText, h, hp],
             fun hp => by simp [statusText, h, hp]⟩

/-- Claim C6, witness: an `IOFailed` error is shown verbatim as the OS
error text. -/
theorem C6_witness :
    statusText
        { theme := HighlighterTheme.SolarizedDark,
          path := some "a.rs",
          content := Content.new,
          error := some (Error.IOFailed IOErrorKind.NotFound),
          is_dirty := false }
      = IOErrorKind.toString IOErrorKind.NotFound :=
  (C6_status _).1 IOErrorKind.NotFound rfl

/-- Claim C8: for every state reachable from the initial state by a
sequence of edit actions, the cursor text rendered in the status bar is the
internal 0-indexed (line, column) position with 1 added to each component,
formatted as "line:column". -/
theorem C8_cursor (acts : List Action) :
    ∀ line column,
      (applyEdits Editor.new.1 acts).content.cursor_position = (line, column) →
      cursorText (applyEdits Editor.new.1 acts)
        = toString (line + 1) ++ ":" ++ toString (column + 1) := by
  intro line column h
  simp [cursorText, h]

/-- Claim C8, witness: after a single Enter edit the cursor is at internal
(1, 0) and the status bar renders "2:1". -/
theorem C8_witness :
    cursorText (applyEdits Editor.new.1 [Action.Edit Edit.Enter])
      = toString (1 + 1) ++ ":" ++ toString (0 + 1) :=
  C8_cursor [Action.Edit Edit.Enter] 1 0 rfl

/-- Claim C9: the save toolbar button carries the `Save` message exactly
when the dirty flag is set (so it is disabled otherwise), while the
Cmd/Ctrl+S key-press subscription emits `Save` in every state; so in a
non-dirty state `Save` can be triggered by keyboard but not by the
button. -/
theorem C9_save_controls (s : Editor) :
    (saveControl s = some Messages.Save ↔ s.is_dirty = true)
    ∧ subscription s KeyCode.S true = some Messages.Save
    ∧ (s.is_dirty = false → saveControl s = none) := by
  refine ⟨?_, rfl, ?_⟩
  · constructor
    · intro h
      by_contra hd
      have hd2 : s.is_dirty = false := by
        cases hb : s.is_dirty
        · rfl
        · exact absurd hb hd
      simp [saveControl, hd2] at h
    · intro h
      simp [saveControl, h]
  · intro h
    simp [saveControl, h]

/-- Claim C9, witness: in the (non-dirty) state obtained by clearing the
initial state's dirty flag, the button carries no message while Cmd/Ctrl+S
still emits `Save`. -/
theorem C9_witness :
    saveControl { Editor.new.1 with is_dirty := false } = none
    ∧ subscription { Editor.new.1 with is_dirty := false } KeyCode.S true
        = some Messages.Save :=
  ⟨(C9_save_controls { Editor.new.1 with is_dirty := false }).2.2 rfl,
   (C9_save_controls { Editor.new.1 with is_dirty := false }).2.1⟩

end EditorApp
